import Mathlib

/-!
Verification development for the YYG SEIR simulator
(region_model.py / simulation.py / fixed_params.py / utils.py).

Real-number ("float") quantities of the Python code are embedded as `ℝ`,
calendar dates as proleptic-Gregorian ordinals (`ℤ`), day indices as `ℕ`.
A Python function that can abort on a failed `assert` is embedded as an
`Option`-returning function (`none` = the construction aborts with no
partial output).
-/

open scoped BigOperators
open Classical

/-! ## Constants from fixed_params.py -/

def INCUBATION_DAYS : ℕ := 2

noncomputable def INFECTIOUS_DAYS_ARR : List ℝ := [0.5, 1, 2, 3, 2, 1, 0.5]

noncomputable def DEATHS_DAYS_ARR : List ℝ :=
  [1, 2, 3, 4, 4, 3, 3, 3, 3, 3, 2, 2, 2, 2, 2]

noncomputable def DEATH_REPORTING_LAG_ARR : List ℝ :=
  0 :: (List.range 30).map (fun i => 15 * 0.85 ^ i)

noncomputable def MORTALITY_MULTIPLIER : ℝ := 0.995

noncomputable def MORTALITY_MULTIPLIER_US_REOPEN : ℝ := 0.975

noncomputable def MIN_MORTALITY_MULTIPLIER : ℝ := 0.3

noncomputable def MIN_IFR : ℝ := 0.002

def DAYS_UNTIL_HOSPITALIZATION : ℕ := 12

noncomputable def HOSPITALIZATION_RATE : ℝ := 0.02

def DAYS_IN_HOSPITAL : ℕ := 11

def DAYS_BEFORE_DEATH : ℕ := 22

noncomputable def IMMUNITY_MULTIPLIER : ℝ := 0.5

noncomputable def IMMUNITY_MULTIPLIER_US_SUBREGION : ℝ := 0.3

def DAYS_UNTIL_LOCKDOWN_FATIGUE : ℕ := 28

def DAYS_WITH_IMPORTS : ℕ := 100

def USE_UNDETECTED_DEATHS_RATIO : Bool := true

def DEFAULT_REOPEN_SHIFT_DAYS : ℤ := 15

/-- datetime.date(2020, 9, 22) as a proleptic-Gregorian ordinal. -/
def FALL_START_DATE_NORTH : ℤ := 737690

def EU_COUNTRIES : List String :=
  ["Austria", "Belgium", "Bulgaria", "Croatia", "Cyprus", "Czechia", "Denmark",
   "Estonia", "Finland", "France", "Germany", "Greece", "Hungary",
   "Ireland", "Italy", "Latvia", "Lithuania", "Luxembourg", "Malta", "Netherlands",
   "Poland", "Portugal", "Romania", "Slovakia", "Slovenia", "Spain", "Sweden"]

def EUROPEAN_COUNTRIES : List String :=
  EU_COUNTRIES ++
  ["United Kingdom", "Switzerland", "Norway",
   "Belarus", "Iceland", "Moldova", "Serbia", "Ukraine"]

def HIGH_INCOME_EUROPEAN_COUNTRIES : List String :=
  ["Iceland", "Norway", "Switzerland", "United Kingdom"] ++
  (EU_COUNTRIES.filter (fun c => c ∉ ["Bulgaria"]))

def HIGH_INCOME_COUNTRIES : List String :=
  ["US", "Australia", "Canada", "Chile", "Israel", "Japan", "South Korea",
   "Kuwait", "Panama", "Saudi Arabia", "United Arab Emirates"] ++
  HIGH_INCOME_EUROPEAN_COUNTRIES

def EARLY_IMPACTED_COUNTRIES : List String :=
  ["US", "Canada", "China", "Japan", "South Korea", "Israel", "Iran"] ++
  EUROPEAN_COUNTRIES

/-! ## Utility functions (utils.py and numeric helpers) -/

/-- utils.inv_sigmoid: `lambda x: b * exp(-(a*(x-shift))) / (1 + exp(-(a*(x-shift)))) + c`. -/
noncomputable def inv_sigmoid (shift a b c : ℝ) : ℝ → ℝ := fun x =>
  b * Real.exp (-(a * (x - shift))) / (1 + Real.exp (-(a * (x - shift)))) + c

/-- Python `int()` applied to a float: truncation toward zero. -/
noncomputable def intTrunc (x : ℝ) : ℤ := if 0 ≤ x then ⌊x⌋ else ⌈x⌉

/-- numpy.rint: round to the nearest integer, ties to the even integer. -/
noncomputable def rint (x : ℝ) : ℤ :=
  if Int.fract x = 1 / 2 then (if 2 ∣ ⌊x⌋ then ⌊x⌋ else ⌊x⌋ + 1) else round x

/-! ## The region model state (region_model.py)

The structure captures a `RegionModel` object after `init_params` has run:
raw (uppercase) parameters, the resolved lowercase parameters set by the
`set_*` methods, the optional engine attributes that `simulation.py` probes
with `hasattr`, and the per-day arrays stored on the object. -/

structure RegionModel where
  country_str : String
  region_str : String
  subregion_str : Option String
  /-- first_date as a day ordinal. -/
  first_date : ℤ
  /-- Number of days in the simulation. -/
  N : ℕ
  /-- region_params['population']. -/
  population : ℕ
  compute_hospitalizations : Bool
  INITIAL_R_0 : ℝ
  LOCKDOWN_R_0 : ℝ
  /-- INFLECTION_DAY as a day ordinal. -/
  INFLECTION_DAY : ℤ
  RATE_OF_INFLECTION : ℝ
  LOCKDOWN_FATIGUE : ℝ
  DAILY_IMPORTS : ℝ
  MORTALITY_RATE : ℝ
  /-- REOPEN_DATE as a day ordinal. -/
  REOPEN_DATE : ℤ
  REOPEN_SHIFT_DAYS : ℝ
  REOPEN_R : ℝ
  REOPEN_INFLECTION : ℝ
  /-- Lowercase attribute set by set_rate_of_inflection. -/
  rate_of_inflection : ℝ
  /-- Lowercase attribute set by set_daily_imports. -/
  daily_imports : ℝ
  /-- Lowercase attribute set by set_post_reopen_equilibrium_r. -/
  post_reopen_equilibrium_r : ℝ
  /-- Lowercase attribute set by set_fall_r_multiplier. -/
  fall_r_multiplier : ℝ
  /-- Optional attribute probed by hasattr in get_daily_imports. -/
  beginning_days_flat : Option ℕ
  /-- Optional attribute probed by hasattr in get_daily_imports. -/
  end_days_offset : Option ℕ
  /-- Optional quarantine attributes (quarantine_fraction, reduction_idx). -/
  quarantine : Option (ℝ × ℕ)
  /-- Attribute R_0_ARR set by init_params (entry per day index). -/
  R_0_ARR : ℕ → ℝ
  /-- Attribute ifr_arr set by init_params (entry per day index). -/
  ifr_arr : ℕ → ℝ
  /-- Attribute undetected_deaths_ratio_arr set by init_params. -/
  undetected_deaths_ratio_arr : ℕ → ℝ
  /-- Attribute immunity_mult set by init_params. -/
  immunity_mult : ℝ

/-- region_model.get_day_idx_from_date: `(date - self.first_date).days`. -/
def RegionModel.get_day_idx_from_date (m : RegionModel) (date : ℤ) : ℤ :=
  date - m.first_date

/-- Property region_model.inflection_day_idx. -/
def RegionModel.inflection_day_idx (m : RegionModel) : ℤ :=
  m.get_day_idx_from_date m.INFLECTION_DAY

/-! ## Immunity multiplier, RegionModel.get_immunity_mult (region_model.py 211-239) -/

/-- region_model.get_transition_sigmoid (the checks are modelled separately
where a caller performs them): `inv_sigmoid(shift, rate, low - high, high)`. -/
noncomputable def get_transition_sigmoid (inflection_idx inflection_rate low_value high_value : ℝ) :
    ℝ → ℝ :=
  inv_sigmoid inflection_idx inflection_rate (low_value - high_value) high_value

/-- RegionModel.get_immunity_mult, the method stored into `self.immunity_mult`
by init_params (region_model.py lines 211-239). -/
noncomputable def RegionModel.get_immunity_mult (m : RegionModel) : ℝ :=
  if m.country_str = "US" then
    (if m.subregion_str.isSome then IMMUNITY_MULTIPLIER_US_SUBREGION else IMMUNITY_MULTIPLIER)
  else if m.subregion_str.isSome then IMMUNITY_MULTIPLIER
  else if m.population < 20000000 then IMMUNITY_MULTIPLIER
  else get_transition_sigmoid 50000000 0.00000003 IMMUNITY_MULTIPLIER 1 (m.population : ℝ)

/-! ## The R trajectory builder (region_model.py 241-311) -/

/-- RegionModel.get_reopen_r (region_model.py 139-146). -/
noncomputable def RegionModel.get_reopen_r (m : RegionModel) : ℝ :=
  if m.LOCKDOWN_R_0 < 1 then max m.LOCKDOWN_R_0 m.REOPEN_R else m.REOPEN_R

/-- `reopen_date_shift = REOPEN_DATE + timedelta(int(REOPEN_SHIFT_DAYS) + DEFAULT_REOPEN_SHIFT_DAYS)`,
then `reopen_idx = get_day_idx_from_date(reopen_date_shift)`. -/
noncomputable def RegionModel.reopen_idx (m : RegionModel) : ℤ :=
  (m.REOPEN_DATE + intTrunc m.REOPEN_SHIFT_DAYS + DEFAULT_REOPEN_SHIFT_DAYS) - m.first_date

def RegionModel.fatigue_idx (m : RegionModel) : ℤ :=
  m.inflection_day_idx + DAYS_UNTIL_LOCKDOWN_FATIGUE

/-- `(inflection_day_idx + reopen_idx) // 2` (Python floor division). -/
noncomputable def RegionModel.lockdown_reopen_midpoint_idx (m : RegionModel) : ℤ :=
  Int.fdiv (m.inflection_day_idx + m.reopen_idx) 2

/-- `int(np.rint(NUMERATOR_CONST / REOPEN_INFLECTION))` with NUMERATOR_CONST = 6. -/
noncomputable def RegionModel.days_until_post_reopen (m : RegionModel) : ℤ :=
  rint (6 / m.REOPEN_INFLECTION)

noncomputable def RegionModel.post_reopen_midpoint_idx (m : RegionModel) : ℤ :=
  m.reopen_idx + m.days_until_post_reopen

noncomputable def RegionModel.post_reopen_idx (m : RegionModel) : ℤ :=
  m.reopen_idx + m.days_until_post_reopen * 2

def RegionModel.fall_start_idx (m : RegionModel) : ℤ :=
  m.get_day_idx_from_date FALL_START_DATE_NORTH - 30

noncomputable def RegionModel.sig_lockdown (m : RegionModel) : ℝ → ℝ :=
  get_transition_sigmoid (m.inflection_day_idx : ℝ) m.rate_of_inflection
    m.INITIAL_R_0 m.LOCKDOWN_R_0

noncomputable def RegionModel.sig_fatigue (m : RegionModel) : ℝ → ℝ :=
  get_transition_sigmoid (m.fatigue_idx : ℝ) 0.2 0 (m.LOCKDOWN_FATIGUE - 1)

noncomputable def RegionModel.sig_reopen (m : RegionModel) : ℝ → ℝ :=
  get_transition_sigmoid (m.reopen_idx : ℝ) m.REOPEN_INFLECTION
    (m.LOCKDOWN_R_0 * m.LOCKDOWN_FATIGUE) m.get_reopen_r

noncomputable def RegionModel.sig_post_reopen (m : RegionModel) : ℝ → ℝ :=
  get_transition_sigmoid (m.post_reopen_idx : ℝ) m.REOPEN_INFLECTION
    m.get_reopen_r (min m.get_reopen_r m.post_reopen_equilibrium_r)

/-- The candidate R value the loop body of build_r_0_arr computes for a day
index (region_model.py 284-299).  Day 0 is `INITIAL_R_0`; later days select a
regime by position, apply the lockdown-fatigue multiplier when
`|LOCKDOWN_FATIGUE - 1| > 1e-9`, and apply the clamped fall multiplier past
`fall_start_idx`. -/
noncomputable def RegionModel.r_candidate (m : RegionModel) (day_idx : ℕ) : ℝ :=
  if day_idx = 0 then m.INITIAL_R_0
  else
    let r_base : ℝ :=
      if (day_idx : ℤ) < m.lockdown_reopen_midpoint_idx then
        (if 1e-9 < |m.LOCKDOWN_FATIGUE - 1| then
          m.sig_lockdown (day_idx : ℝ) * (1 + m.sig_fatigue (day_idx : ℝ))
        else m.sig_lockdown (day_idx : ℝ))
      else if m.post_reopen_midpoint_idx < (day_idx : ℤ) then m.sig_post_reopen (day_idx : ℝ)
      else m.sig_reopen (day_idx : ℝ)
    if m.fall_start_idx < (day_idx : ℤ) then
      r_base * max 0.9 (min 1.5 (m.fall_r_multiplier ^ ((day_idx : ℤ) - m.fall_start_idx).toNat))
    else r_base

/-- The checks performed by get_transition_sigmoid when check_values=True. -/
def sigmoid_checks (rate low high : ℝ) : Prop :=
  (0 < rate ∧ rate ≤ 1) ∧ (0 < low ∧ low ≤ 10) ∧ (0 ≤ high ∧ high ≤ 10)

/-- All asserts build_r_0_arr can trip over: the LOCKDOWN_FATIGUE domain
check, the `10 <= days_until_post_reopen <= 80` check, the check_values
asserts of the three sigmoids built with checking on, the day-over-day
stability guard past reopen_idx, and the final length assert (nonempty). -/
noncomputable def RegionModel.r_0_checks (m : RegionModel) : Prop :=
  (0.5 ≤ m.LOCKDOWN_FATIGUE ∧ m.LOCKDOWN_FATIGUE ≤ 1.5) ∧
  (10 ≤ m.days_until_post_reopen ∧ m.days_until_post_reopen ≤ 80) ∧
  sigmoid_checks m.rate_of_inflection m.INITIAL_R_0 m.LOCKDOWN_R_0 ∧
  sigmoid_checks m.REOPEN_INFLECTION (m.LOCKDOWN_R_0 * m.LOCKDOWN_FATIGUE) m.get_reopen_r ∧
  sigmoid_checks m.REOPEN_INFLECTION m.get_reopen_r
    (min m.get_reopen_r m.post_reopen_equilibrium_r) ∧
  (∀ day_idx : ℕ, 1 ≤ day_idx → day_idx < m.N → m.reopen_idx < (day_idx : ℤ) →
    |m.r_candidate day_idx / m.r_candidate (day_idx - 1) - 1| ≤ 0.2) ∧
  1 ≤ m.N

/-- RegionModel.build_r_0_arr (region_model.py 241-311): `some` of the
per-day R array when every assert passes, `none` when the construction
aborts. -/
noncomputable def RegionModel.build_r_0_arr (m : RegionModel) : Option (List ℝ) :=
  if m.r_0_checks then some (List.ofFn (fun i : Fin m.N => m.r_candidate i)) else none

/-! ## The IFR builder (region_model.py 313-353) -/

/-- `min_mortality_multiplier`: 0.5 for ('US', 'MA'), else MIN_MORTALITY_MULTIPLIER. -/
noncomputable def RegionModel.min_mortality_multiplier (m : RegionModel) : ℝ :=
  if m.country_str = "US" ∧ m.region_str = "MA" then 0.5 else MIN_MORTALITY_MULTIPLIER

/-- The ifr multiplier of a day index (region_model.py 331-349). -/
noncomputable def RegionModel.ifr_mult (m : RegionModel) (idx : ℕ) : ℝ :=
  let total_days_with_mult : ℕ :=
    if m.country_str ∈ EARLY_IMPACTED_COUNTRIES then idx - 30 else idx - 120
  if m.country_str ∈ EARLY_IMPACTED_COUNTRIES then
    let days_after_reopening : ℕ :=
      (max 0 (min 30 ((idx : ℤ) - (m.reopen_idx + (DAYS_BEFORE_DEATH : ℤ) / 2)))).toNat
    let days_else : ℕ := total_days_with_mult - days_after_reopening
    max m.min_mortality_multiplier
      (MORTALITY_MULTIPLIER ^ days_else * MORTALITY_MULTIPLIER_US_REOPEN ^ days_after_reopening)
  else
    max m.min_mortality_multiplier (MORTALITY_MULTIPLIER ^ total_days_with_mult)

/-- One entry of RegionModel.build_ifr_arr: `max(MIN_IFR, MORTALITY_RATE * ifr_mult)`. -/
noncomputable def RegionModel.ifr_entry (m : RegionModel) (idx : ℕ) : ℝ :=
  max MIN_IFR (m.MORTALITY_RATE * m.ifr_mult idx)

/-- RegionModel.build_ifr_arr (region_model.py 313-353). -/
noncomputable def RegionModel.build_ifr_arr (m : RegionModel) : List ℝ :=
  List.ofFn (fun i : Fin m.N => m.ifr_entry i)

/-! ## The undetected-deaths-ratio builder (region_model.py 355-403) -/

/-- The (days_until_min_undetected, min_undetected) pair selected by country
(region_model.py 376-391). -/
def RegionModel.undetected_params (m : RegionModel) : ℕ × ℝ :=
  if m.country_str ∈ HIGH_INCOME_COUNTRIES then (60, 0.05)
  else if m.country_str ∈ ["Ecuador", "India", "Pakistan"] then (120, 0.5)
  else if m.country_str ∈ ["Indonesia", "Peru", "South Africa"] then (120, 0.25)
  else if m.country_str ∈ ["Brazil", "Mexico", "Russia"] then (120, 0.2)
  else (120, 0.15)

def RegionModel.days_until_min_undetected (m : RegionModel) : ℕ :=
  m.undetected_params.1

def RegionModel.min_undetected (m : RegionModel) : ℝ :=
  m.undetected_params.2

/-- One entry of build_undetected_deaths_ratio_arr:
`max(min_undetected, 1 - daily_step * idx)` when the feature is enabled,
0 otherwise (the disabled build returns an all-zero array). -/
noncomputable def RegionModel.undetected_entry (m : RegionModel) (idx : ℕ) : ℝ :=
  if USE_UNDETECTED_DEATHS_RATIO then
    max m.min_undetected
      (1 - ((1 - m.min_undetected) / (m.days_until_min_undetected : ℝ)) * (idx : ℝ))
  else 0

/-- RegionModel.build_undetected_deaths_ratio_arr (region_model.py 355-403). -/
noncomputable def RegionModel.build_undetected_deaths_ratio_arr (m : RegionModel) : List ℝ :=
  List.ofFn (fun i : Fin m.N => m.undetected_entry i)

/-- RegionModel.get_reporting_delay_distribution (region_model.py 405-413):
DEATH_REPORTING_LAG_ARR normalized to sum to 1. -/
noncomputable def RegionModel.get_reporting_delay_distribution : List ℝ :=
  DEATH_REPORTING_LAG_ARR.map (fun v => v / DEATH_REPORTING_LAG_ARR.sum)

/-- The array-initialization part of RegionModel.init_params (region_model.py
124-128): stores the immunity multiplier and the three per-day arrays onto
the object (array entries beyond index N-1 are never read by the engine). -/
noncomputable def RegionModel.init_params (m : RegionModel) : RegionModel :=
  { m with
    immunity_mult := m.get_immunity_mult
    R_0_ARR := fun i => m.r_candidate i
    ifr_arr := fun i => m.ifr_entry i
    undetected_deaths_ratio_arr := fun i => m.undetected_entry i }

/-! ## The simulation engine (simulation.py) -/

/-- simulation.get_daily_imports (simulation.py 14-48). -/
noncomputable def Simulation.get_daily_imports (m : RegionModel) (i : ℕ) : ℝ :=
  let beginning_days_flat : ℕ := m.beginning_days_flat.getD 10
  let end_days_offset : ℕ := m.end_days_offset.getD (m.N - min m.N DAYS_WITH_IMPORTS)
  let n_ : ℤ := (m.N : ℤ) - (beginning_days_flat : ℤ) - (end_days_offset : ℤ) + 1
  let daily_imports : ℝ :=
    m.DAILY_IMPORTS * (1 - min 1 (max 0 ((i : ℝ) - (beginning_days_flat : ℝ) + 1) / (n_ : ℝ)))
  if m.country_str ∉ ["China", "South Korea", "Australia"] ∧ m.end_days_offset = none then
    max daily_imports (min 10 (0.1 * m.DAILY_IMPORTS))
  else daily_imports

/-- The value the local variable immunity_mult of simulation.get_immunity_mult
holds before the EARLY_IMPACTED_COUNTRIES correction (simulation.py 61-74). -/
noncomputable def Simulation.immunity_mult_base (m : RegionModel) : ℝ :=
  if m.country_str = "US" then
    (if m.subregion_str.isSome then IMMUNITY_MULTIPLIER_US_SUBREGION else IMMUNITY_MULTIPLIER)
  else if m.subregion_str.isSome then IMMUNITY_MULTIPLIER
  else if m.population < 20000000 then
    inv_sigmoid 10000000 0.0000003 (IMMUNITY_MULTIPLIER - 1) 1 (m.population : ℝ)
  else
    inv_sigmoid 20000000 0.00000003 (IMMUNITY_MULTIPLIER - 1.25) 1.25 (m.population : ℝ)

/-- simulation.get_immunity_mult, the module-level function called inside
run() (simulation.py 51-81).  This is distinct from
RegionModel.get_immunity_mult. -/
noncomputable def Simulation.get_immunity_mult (m : RegionModel) : ℝ :=
  if m.country_str ∉ EARLY_IMPACTED_COUNTRIES then Simulation.immunity_mult_base m * 1.1
  else Simulation.immunity_mult_base m

/-- The normalized (and reversed) infectiousness kernel
`infections_norm = INFECTIOUS_DAYS_ARR[::-1] / INFECTIOUS_DAYS_ARR.sum()`
(simulation.py 102), before the optional quarantine adjustment. -/
noncomputable def Simulation.infections_norm_base : List ℝ :=
  INFECTIOUS_DAYS_ARR.reverse.map (fun v => v / INFECTIOUS_DAYS_ARR.sum)

/-- Entry k of the infectiousness kernel actually used by run(), after the
in-place quarantine adjustment of simulation.py 103-110 when the
quarantine attributes are present. -/
noncomputable def Simulation.infections_norm (m : RegionModel) (k : ℕ) : ℝ :=
  let v := Simulation.infections_norm_base.getD k 0
  match m.quarantine with
  | none => v
  | some q =>
      if k < q.2 then v * (1 - q.1)
      else if k = q.2 then v * 0.5 + v * 0.5 * (1 - q.1)
      else v

/-- The normalized (and reversed) death-delay kernel
`deaths_norm = DEATHS_DAYS_ARR[::-1] / DEATHS_DAYS_ARR.sum()` (simulation.py 101). -/
noncomputable def Simulation.deaths_norm : List ℝ :=
  DEATHS_DAYS_ARR.reverse.map (fun v => v / DEATHS_DAYS_ARR.sum)

/-- The infections loop of run() (simulation.py 122-138).  For a day index in
the initial seeding window (`i < INCUBATION_DAYS + len(infections_norm)`) the
day is seeded with the raw DAILY_IMPORTS parameter; otherwise
`infections[i] = (window · infections_norm) * effective_r + get_daily_imports(i)`
where `effective_r = R_0_ARR[i] * (1 - min(1, infections[:i-1].sum()/population))**immunity_mult`
and the window is `infections[i-INCUBATION_DAYS-7+1 : i-INCUBATION_DAYS+1]`. -/
noncomputable def Simulation.infections (m : RegionModel) (i : ℕ) : ℝ :=
  if h : i < INCUBATION_DAYS + 7 then m.DAILY_IMPORTS
  else
    let perc : ℝ :=
      min 1 ((∑ j in (Finset.range (i - 1)).attach, Simulation.infections m j.1) /
        (m.population : ℝ))
    let effective_r : ℝ := m.R_0_ARR i * (1 - perc) ^ Simulation.get_immunity_mult m
    (∑ k : Fin 7,
        Simulation.infections m (i - INCUBATION_DAYS - 7 + 1 + k.1) *
          Simulation.infections_norm m k.1) * effective_r +
      Simulation.get_daily_imports m i
termination_by i
decreasing_by
  · have hj := Finset.mem_range.mp j.2
    simp only [INCUBATION_DAYS] at h ⊢
    omega
  · have hk := k.isLt
    simp only [INCUBATION_DAYS] at h ⊢
    omega

/-- The effective reproduction number run() records for day i
(entries of effective_r_arr, simulation.py 126 and 133-139). -/
noncomputable def Simulation.effective_r (m : RegionModel) (i : ℕ) : ℝ :=
  if i < INCUBATION_DAYS + 7 then m.R_0_ARR i
  else
    m.R_0_ARR i *
      (1 - min 1 ((∑ j in Finset.range (i - 1), Simulation.infections m j) /
        (m.population : ℝ))) ^ Simulation.get_immunity_mult m

/-- The hospitalizations series of run() (simulation.py 148-157): day _i holds
`int(HOSPITALIZATION_RATE * infections[start_idx:end_idx].sum())` when the
computation is enabled, and stays NaN (modelled as `none`) otherwise. -/
noncomputable def Simulation.hospitalizations (m : RegionModel) (i : ℕ) : Option ℤ :=
  if m.compute_hospitalizations then
    some (intTrunc (HOSPITALIZATION_RATE *
      ∑ k in Finset.Ico (i - DAYS_UNTIL_HOSPITALIZATION - DAYS_IN_HOSPITAL)
        (i - DAYS_UNTIL_HOSPITALIZATION), Simulation.infections m k))
  else none

/-- `infections_subject_to_death` of the deaths loop (simulation.py 166-167),
indexed by the day of death d = _i + DAYS_BEFORE_DEATH:
`(infections[max(0, _i-deaths_offset):_i+deaths_offset+1] * deaths_norm[:min(len, deaths_offset+_i+1)]).sum()`. -/
noncomputable def Simulation.infections_subject_to_death (m : RegionModel) (d : ℕ) : ℝ :=
  ∑ k in Finset.range (min 15 (d - 14)),
    Simulation.infections m ((d - 29) + k) * Simulation.deaths_norm.getD k 0

/-- The true deaths of a day of death d (simulation.py 168), zero outside the
day range `[15, N)` the loop writes. -/
noncomputable def Simulation.true_deaths (m : RegionModel) (d : ℕ) : ℝ :=
  if 15 ≤ d ∧ d < m.N then Simulation.infections_subject_to_death m d * m.ifr_arr d
  else 0

/-- The deaths series run() returns (simulation.py 162-171): for every day of
death d in `[15, N)`,
`deaths[d] = true_deaths * (1 - undetected_deaths_ratio_arr[d])`,
all other entries keep their 0 initialization. -/
noncomputable def Simulation.deaths (m : RegionModel) (d : ℕ) : ℝ :=
  if 15 ≤ d ∧ d < m.N then
    Simulation.infections_subject_to_death m d * m.ifr_arr d *
      (1 - m.undetected_deaths_ratio_arr d)
  else 0

/-- The dates series of run() (simulation.py 86-87), as day ordinals. -/
def Simulation.dates (m : RegionModel) (i : ℕ) : ℤ := m.first_date + (i : ℤ)

/-- Modelled from the spec (section 4.6, "Reported deaths"), for comparison
with the code: reported deaths as the forward convolution of the detected
true deaths with the normalized report-lag kernel, so that the detected true
deaths of day j are spread over reporting days j, j+1, ... with weights
given by get_reporting_delay_distribution. -/
noncomputable def Simulation.reported_deaths_spec (m : RegionModel) (d : ℕ) : ℝ :=
  ∑ k in Finset.range (min (d + 1) 31),
    Simulation.true_deaths m (d - k) * (1 - m.undetected_deaths_ratio_arr (d - k)) *
      RegionModel.get_reporting_delay_distribution.getD k 0

/-! ## Basic lemmas about the embedded operations -/

theorem infections_seed (m : RegionModel) (i : ℕ) (h : i < INCUBATION_DAYS + 7) :
    Simulation.infections m i = m.DAILY_IMPORTS := by
  rw [Simulation.infections]
  exact dif_pos h

theorem infections_main (m : RegionModel) (i : ℕ) (h : INCUBATION_DAYS + 7 ≤ i) :
    Simulation.infections m i =
      (∑ k in Finset.range 7,
          Simulation.infections m (i - INCUBATION_DAYS - 7 + 1 + k) *
            Simulation.infections_norm m k) *
        Simulation.effective_r m i + Simulation.get_daily_imports m i := by
  rw [Simulation.infections, dif_neg (by omega)]
  rw [Simulation.effective_r, if_neg (by omega)]
  rw [Finset.sum_attach (Finset.range (i - 1)) (fun j => Simulation.infections m j)]
  rw [Fin.sum_univ_eq_sum_range
    (fun k => Simulation.infections m (i - INCUBATION_DAYS - 7 + 1 + k) *
      Simulation.infections_norm m k) 7]

theorem get_transition_sigmoid_const (s a v x : ℝ) :
    get_transition_sigmoid s a v v x = v := by
  simp [get_transition_sigmoid, inv_sigmoid]

theorem rint_intCast (n : ℤ) : rint (n : ℝ) = n := by
  have h1 : Int.fract (n : ℝ) = 0 := Int.fract_intCast n
  rw [rint, h1]
  norm_num

theorem le_rint (n : ℤ) (y : ℝ) (h : (n : ℝ) + 1 / 2 < y) : n + 1 ≤ rint y := by
  rw [rint]
  split_ifs with h1 h2
  · have hy : y = (⌊y⌋ : ℝ) + 1 / 2 := by
      have := Int.fract_add_floor y
      rw [h1] at this
      linarith
    have : (n : ℝ) < (⌊y⌋ : ℝ) := by linarith
    have : n < ⌊y⌋ := by exact_mod_cast this
    omega
  · have hy : y = (⌊y⌋ : ℝ) + 1 / 2 := by
      have := Int.fract_add_floor y
      rw [h1] at this
      linarith
    have : (n : ℝ) < (⌊y⌋ : ℝ) := by linarith
    have : n < ⌊y⌋ := by exact_mod_cast this
    omega
  · rw [round_eq]
    rw [Int.le_floor]
    push_cast
    linarith

theorem rint_le (n : ℤ) (y : ℝ) (h : y < (n : ℝ) + 1 / 2) : rint y ≤ n := by
  rw [rint]
  split_ifs with h1 h2
  · have hy : y = (⌊y⌋ : ℝ) + 1 / 2 := by
      have := Int.fract_add_floor y
      rw [h1] at this
      linarith
    have : (⌊y⌋ : ℝ) < (n : ℝ) := by linarith
    have : ⌊y⌋ < n := by exact_mod_cast this
    omega
  · have hy : y = (⌊y⌋ : ℝ) + 1 / 2 := by
      have := Int.fract_add_floor y
      rw [h1] at this
      linarith
    have : (⌊y⌋ : ℝ) < (n : ℝ) := by linarith
    have : ⌊y⌋ < n := by exact_mod_cast this
    omega
  · rw [round_eq]
    have : ⌊y + 1 / 2⌋ < n + 1 := by
      rw [Int.floor_lt]
      push_cast
      linarith
    omega

theorem ofFn_getD {n : ℕ} (f : Fin n → ℝ) (i : ℕ) (h : i < n) :
    (List.ofFn f).getD i 0 = f ⟨i, h⟩ := by
  have hl : i < (List.ofFn f).length := by simpa using h
  rw [List.getD_eq_getElem _ _ hl, List.getElem_ofFn]

/-! ## Shared positivity / bound lemmas -/

theorem inv_sigmoid_pos (shift a b c x : ℝ) (hb : b ≤ 0) (hbc : 0 < b + c) :
    0 < inv_sigmoid shift a b c x := by
  rw [inv_sigmoid]
  have hE0 : 0 < Real.exp (-(a * (x - shift))) := Real.exp_pos _
  set E := Real.exp (-(a * (x - shift))) with hE
  have hre : b * E / (1 + E) = b * (E / (1 + E)) := by ring
  have ht1 : E / (1 + E) ≤ 1 := by
    rw [div_le_one (by linarith)]
    linarith
  have ht0 : 0 ≤ E / (1 + E) := by positivity
  have hmul : b * 1 ≤ b * (E / (1 + E)) := mul_le_mul_of_nonpos_left ht1 hb
  rw [hre]
  nlinarith

theorem immunity_mult_base_pos (m : RegionModel) : 0 < Simulation.immunity_mult_base m := by
  rw [Simulation.immunity_mult_base]
  split_ifs with h1 h2 h3 h4
  · norm_num [IMMUNITY_MULTIPLIER_US_SUBREGION]
  · norm_num [IMMUNITY_MULTIPLIER]
  · norm_num [IMMUNITY_MULTIPLIER]
  · apply inv_sigmoid_pos <;> norm_num [IMMUNITY_MULTIPLIER]
  · apply inv_sigmoid_pos <;> norm_num [IMMUNITY_MULTIPLIER]

theorem immunity_mult_pos (m : RegionModel) : 0 < Simulation.get_immunity_mult m := by
  rw [Simulation.get_immunity_mult]
  split_ifs with h
  · exact immunity_mult_base_pos m
  · exact mul_pos (immunity_mult_base_pos m) (by norm_num)

theorem min_mortality_multiplier_bounds (m : RegionModel) :
    0 < m.min_mortality_multiplier ∧ m.min_mortality_multiplier ≤ 1 := by
  rw [RegionModel.min_mortality_multiplier]
  split_ifs <;> norm_num [MIN_MORTALITY_MULTIPLIER]

theorem ifr_mult_le_one (m : RegionModel) (idx : ℕ) : m.ifr_mult idx ≤ 1 := by
  rw [RegionModel.ifr_mult]
  have hmm := (min_mortality_multiplier_bounds m).2
  split_ifs with h
  · apply max_le hmm
    apply mul_le_one
    · exact pow_le_one (by norm_num [MORTALITY_MULTIPLIER]) (by norm_num [MORTALITY_MULTIPLIER])
    · exact pow_nonneg (by norm_num [MORTALITY_MULTIPLIER_US_REOPEN]) _
    · exact pow_le_one (by norm_num [MORTALITY_MULTIPLIER_US_REOPEN])
        (by norm_num [MORTALITY_MULTIPLIER_US_REOPEN])
  · exact max_le hmm
      (pow_le_one (by norm_num [MORTALITY_MULTIPLIER]) (by norm_num [MORTALITY_MULTIPLIER]))

theorem ifr_mult_pos (m : RegionModel) (idx : ℕ) : 0 < m.ifr_mult idx := by
  rw [RegionModel.ifr_mult]
  have hmm := (min_mortality_multiplier_bounds m).1
  split_ifs with h
  · exact lt_max_of_lt_left hmm
  · exact lt_max_of_lt_left hmm

theorem undetected_params_bounds (m : RegionModel) :
    0 < m.min_undetected ∧ m.min_undetected ≤ 1 ∧ 0 < m.days_until_min_undetected := by
  rw [RegionModel.min_undetected, RegionModel.days_until_min_undetected,
    RegionModel.undetected_params]
  split_ifs <;> norm_num

theorem sum_infections_seed (m : RegionModel) (n : ℕ) (hn : n ≤ INCUBATION_DAYS + 7) :
    (∑ j in Finset.range n, Simulation.infections m j) = (n : ℝ) * m.DAILY_IMPORTS := by
  have hs : ∀ j ∈ Finset.range n, Simulation.infections m j = m.DAILY_IMPORTS := by
    intro j hj
    have := Finset.mem_range.mp hj
    exact infections_seed m j (by omega)
  rw [Finset.sum_congr rfl hs, Finset.sum_const, nsmul_eq_mul, Finset.card_range]

/-! ## A concrete region model (used by the witnesses and counterexamples)

`baseModel` is a US/CA model over N = 30 days with all three R parameters
equal to 1 and LOCKDOWN_FATIGUE = 1, so that every regime sigmoid is the
constant 1 and the ordering of the regime day-indices is easy to read off:
inflection_day_idx = 1, reopen_idx = 17, days_until_post_reopen = 20. -/

noncomputable def baseModel : RegionModel := {
  country_str := "US"
  region_str := "CA"
  subregion_str := none
  first_date := 0
  N := 30
  population := 1000
  compute_hospitalizations := true
  INITIAL_R_0 := 1
  LOCKDOWN_R_0 := 1
  INFLECTION_DAY := 1
  RATE_OF_INFLECTION := 0.25
  LOCKDOWN_FATIGUE := 1
  DAILY_IMPORTS := 100
  MORTALITY_RATE := 0.01
  REOPEN_DATE := 2
  REOPEN_SHIFT_DAYS := 0
  REOPEN_R := 1
  REOPEN_INFLECTION := 0.3
  rate_of_inflection := 0.25
  daily_imports := 100
  post_reopen_equilibrium_r := 1
  fall_r_multiplier := 1
  beginning_days_flat := none
  end_days_offset := none
  quarantine := none
  R_0_ARR := fun _ => 1
  ifr_arr := fun _ => 0
  undetected_deaths_ratio_arr := fun _ => 0
  immunity_mult := 0.5 }

/-- baseModel after init_params has stored the built arrays. -/
noncomputable def M0 : RegionModel := RegionModel.init_params baseModel

theorem baseModel_reopen_idx : RegionModel.reopen_idx baseModel = 17 := by
  rw [RegionModel.reopen_idx, intTrunc]
  norm_num [baseModel, DEFAULT_REOPEN_SHIFT_DAYS]

theorem baseModel_reopen_r : RegionModel.get_reopen_r baseModel = 1 := by
  rw [RegionModel.get_reopen_r]
  norm_num [baseModel]

theorem baseModel_r_candidate (d : ℕ) : RegionModel.r_candidate baseModel d = 1 := by
  rw [RegionModel.r_candidate]
  have hsl : ∀ x : ℝ, RegionModel.sig_lockdown baseModel x = 1 := by
    intro x
    rw [RegionModel.sig_lockdown]
    rw [show baseModel.INITIAL_R_0 = (1 : ℝ) by norm_num [baseModel],
      show baseModel.LOCKDOWN_R_0 = (1 : ℝ) by norm_num [baseModel]]
    exact get_transition_sigmoid_const _ _ _ _
  have hsr : ∀ x : ℝ, RegionModel.sig_reopen baseModel x = 1 := by
    intro x
    rw [RegionModel.sig_reopen]
    rw [show baseModel.LOCKDOWN_R_0 * baseModel.LOCKDOWN_FATIGUE = (1 : ℝ) by
        norm_num [baseModel],
      baseModel_reopen_r]
    exact get_transition_sigmoid_const _ _ _ _
  have hsp : ∀ x : ℝ, RegionModel.sig_post_reopen baseModel x = 1 := by
    intro x
    rw [RegionModel.sig_post_reopen, baseModel_reopen_r]
    rw [show min (1 : ℝ) baseModel.post_reopen_equilibrium_r = (1 : ℝ) by norm_num [baseModel]]
    exact get_transition_sigmoid_const _ _ _ _
  have hfat : ¬ ((1e-9 : ℝ) < |baseModel.LOCKDOWN_FATIGUE - 1|) := by
    norm_num [baseModel]
  split_ifs with h1 h2 h3 h4 h5 h6 h7 h8 <;>
    simp_all [hsl, hsr, hsp] <;>
    norm_num [baseModel, RegionModel.fall_start_idx, RegionModel.get_day_idx_from_date,
      FALL_START_DATE_NORTH] at *

theorem baseModel_days_until_post_reopen :
    RegionModel.days_until_post_reopen baseModel = 20 := by
  rw [RegionModel.days_until_post_reopen]
  rw [show (6 : ℝ) / baseModel.REOPEN_INFLECTION = ((20 : ℤ) : ℝ) by norm_num [baseModel]]
  exact rint_intCast 20

theorem baseModel_checks : RegionModel.r_0_checks baseModel := by
  refine ⟨⟨by norm_num [baseModel], by norm_num [baseModel]⟩,
    ⟨by rw [baseModel_days_until_post_reopen]; norm_num,
     by rw [baseModel_days_until_post_reopen]; norm_num⟩,
    ⟨⟨by norm_num [baseModel], by norm_num [baseModel]⟩,
     ⟨by norm_num [baseModel], by norm_num [baseModel]⟩,
     ⟨by norm_num [baseModel], by norm_num [baseModel]⟩⟩,
    ⟨⟨by norm_num [baseModel], by norm_num [baseModel]⟩,
     ⟨by norm_num [baseModel], by norm_num [baseModel]⟩,
     ⟨by rw [baseModel_reopen_r]; norm_num, by rw [baseModel_reopen_r]; norm_num⟩⟩,
    ⟨⟨by norm_num [baseModel], by norm_num [baseModel]⟩,
     ⟨by rw [baseModel_reopen_r]; norm_num, by rw [baseModel_reopen_r]; norm_num⟩,
     ⟨by rw [baseModel_reopen_r]; norm_num [baseModel],
      by rw [baseModel_reopen_r]; norm_num [baseModel]⟩⟩,
    ?_, by norm_num [baseModel]⟩
  intro day_idx hd1 hd2 hd3
  rw [baseModel_r_candidate day_idx, baseModel_r_candidate (day_idx - 1)]
  norm_num

theorem baseModel_build : RegionModel.build_r_0_arr baseModel =
    some (List.ofFn (fun i : Fin baseModel.N => RegionModel.r_candidate baseModel i)) := by
  rw [RegionModel.build_r_0_arr, if_pos baseModel_checks]

/-! ## Independence of run() from the lowercase daily_imports attribute -/

theorem infections_update (m : RegionModel) (v : ℝ) : ∀ i,
    Simulation.infections { m with daily_imports := v } i = Simulation.infections m i := by
  intro i
  induction i using Nat.strong_induction_on with
  | _ i ih =>
    by_cases h : i < INCUBATION_DAYS + 7
    · rw [infections_seed _ _ h, infections_seed _ _ h]
    · push_neg at h
      rw [infections_main _ _ h, infections_main _ _ h]
      have heff : Simulation.effective_r { m with daily_imports := v } i =
          Simulation.effective_r m i := by
        rw [Simulation.effective_r, Simulation.effective_r]
        have hsum : (∑ j in Finset.range (i - 1),
            Simulation.infections { m with daily_imports := v } j) =
            ∑ j in Finset.range (i - 1), Simulation.infections m j := by
          refine Finset.sum_congr rfl ?_
          intro j hj
          have := Finset.mem_range.mp hj
          exact ih j (by omega)
        rw [hsum]
        rfl
      have hwin : (∑ k in Finset.range 7,
          Simulation.infections { m with daily_imports := v } (i - INCUBATION_DAYS - 7 + 1 + k) *
            Simulation.infections_norm { m with daily_imports := v } k) =
          ∑ k in Finset.range 7,
            Simulation.infections m (i - INCUBATION_DAYS - 7 + 1 + k) *
              Simulation.infections_norm m k := by
        refine Finset.sum_congr rfl ?_
        intro k hk
        have hk7 := Finset.mem_range.mp hk
        have h9 : INCUBATION_DAYS + 7 ≤ i := h
        rw [ih (i - INCUBATION_DAYS - 7 + 1 + k) (by simp only [INCUBATION_DAYS] at h9 ⊢; omega)]
        rfl
      rw [hwin, heff]
      rfl

theorem hospitalizations_update (m : RegionModel) (v : ℝ) (i : ℕ) :
    Simulation.hospitalizations { m with daily_imports := v } i =
      Simulation.hospitalizations m i := by
  rw [Simulation.hospitalizations, Simulation.hospitalizations]
  have hsum : (∑ k in Finset.Ico (i - DAYS_UNTIL_HOSPITALIZATION - DAYS_IN_HOSPITAL)
      (i - DAYS_UNTIL_HOSPITALIZATION),
        Simulation.infections { m with daily_imports := v } k) =
      ∑ k in Finset.Ico (i - DAYS_UNTIL_HOSPITALIZATION - DAYS_IN_HOSPITAL)
      (i - DAYS_UNTIL_HOSPITALIZATION), Simulation.infections m k :=
    Finset.sum_congr rfl (fun k _ => infections_update m v k)
  rw [hsum]

theorem deaths_update (m : RegionModel) (v : ℝ) (d : ℕ) :
    Simulation.deaths { m with daily_imports := v } d = Simulation.deaths m d := by
  have hsub : Simulation.infections_subject_to_death { m with daily_imports := v } d =
      Simulation.infections_subject_to_death m d := by
    rw [Simulation.infections_subject_to_death, Simulation.infections_subject_to_death]
    exact Finset.sum_congr rfl (fun k _ => by rw [infections_update])
  rw [Simulation.deaths, Simulation.deaths, hsub]

/-- C9: the simulation output is independent of the resolved lowercase
daily_imports attribute set by set_daily_imports: changing only that field
leaves the dates, infections, hospitalizations and deaths series of run()
unchanged, because the seeding assignment and the import schedule read only
the raw DAILY_IMPORTS parameter. -/
theorem claim_C9 (m : RegionModel) (v : ℝ) :
    (∀ i, Simulation.dates { m with daily_imports := v } i = Simulation.dates m i) ∧
    (∀ i, Simulation.infections { m with daily_imports := v } i = Simulation.infections m i) ∧
    (∀ i, Simulation.hospitalizations { m with daily_imports := v } i =
      Simulation.hospitalizations m i) ∧
    (∀ d, Simulation.deaths { m with daily_imports := v } d = Simulation.deaths m d) :=
  ⟨fun _ => rfl, infections_update m v, hospitalizations_update m v, deaths_update m v⟩

/-! ## C2: which immunity multiplier does run() consume? -/

/-- A Brazil model with a subregion, after init_params. -/
noncomputable def mC2 : RegionModel := RegionModel.init_params
  { baseModel with country_str := "Brazil", region_str := "ALL", subregion_str := some ("Acre") }

/-- C2 counterexample: for a Brazil subregion model, init_params stores
immunity_mult = RegionModel.get_immunity_mult = 0.5, but run() computes its
multiplier with the module-level simulation.get_immunity_mult, which applies
an extra 1.1 factor (Brazil is not early-impacted) and yields 0.55. -/
theorem claim_C2_counterexample :
    mC2.immunity_mult = RegionModel.get_immunity_mult mC2 ∧
    Simulation.get_immunity_mult mC2 ≠ mC2.immunity_mult := by
  constructor
  · rfl
  · have hrm : RegionModel.get_immunity_mult mC2 = 0.5 := by
      rw [RegionModel.get_immunity_mult,
        if_neg (show ¬ (mC2.country_str = "US") from by decide),
        if_pos (show mC2.subregion_str.isSome = true from by decide)]
      norm_num [IMMUNITY_MULTIPLIER]
    have hsim : Simulation.get_immunity_mult mC2 = 0.55 := by
      rw [Simulation.get_immunity_mult, if_pos (by decide), Simulation.immunity_mult_base,
        if_neg (show ¬ (mC2.country_str = "US") from by decide),
        if_pos (show mC2.subregion_str.isSome = true from by decide)]
      norm_num [IMMUNITY_MULTIPLIER]
    have hfield : mC2.immunity_mult = RegionModel.get_immunity_mult mC2 := rfl
    rw [hsim, hfield, hrm]
    norm_num

/-- C2 (amended): run() recomputes its immunity multiplier with the
module-level simulation.get_immunity_mult instead of reading the stored
region_model.immunity_mult; the two functions agree whenever the country is
"US" (with or without a subregion), though not in general. -/
theorem claim_C2 (m : RegionModel) (h : m.country_str = "US") :
    Simulation.get_immunity_mult m = RegionModel.get_immunity_mult m := by
  rw [Simulation.get_immunity_mult, Simulation.immunity_mult_base,
    RegionModel.get_immunity_mult]
  rw [if_neg (by rw [h]; decide), if_pos h, if_pos h]

/-- C2 witness: the amended agreement at the concrete US model. -/
theorem claim_C2_witness :
    Simulation.get_immunity_mult baseModel = RegionModel.get_immunity_mult baseModel :=
  claim_C2 baseModel rfl

/-! ## C10: the hidden domain restriction on REOPEN_INFLECTION -/

noncomputable def mC10 : RegionModel := { baseModel with REOPEN_INFLECTION := 0.05 }

/-- C10: build_r_0_arr succeeds only when rint(6 / REOPEN_INFLECTION) lies in
[10, 80]; and for every REOPEN_INFLECTION in the declared domain (0, 1] that
lies outside [6/80.5, 6/9.5], the build aborts (returns none) before any R
array is produced. -/
theorem claim_C10 (m : RegionModel) :
    (∀ arr, m.build_r_0_arr = some arr →
      10 ≤ rint (6 / m.REOPEN_INFLECTION) ∧ rint (6 / m.REOPEN_INFLECTION) ≤ 80) ∧
    (0 < m.REOPEN_INFLECTION → m.REOPEN_INFLECTION ≤ 1 →
      (m.REOPEN_INFLECTION < 6 / 80.5 ∨ 6 / 9.5 < m.REOPEN_INFLECTION) →
      m.build_r_0_arr = none) := by
  constructor
  · intro arr harr
    rw [RegionModel.build_r_0_arr] at harr
    by_cases hc : m.r_0_checks
    · exact hc.2.1
    · rw [if_neg hc] at harr
      exact absurd harr (by simp)
  · intro h0 h1 hout
    rw [RegionModel.build_r_0_arr, if_neg]
    intro hc
    have hd := hc.2.1
    rcases hout with hlt | hgt
    · have hgt2 : (80.5 : ℝ) < 6 / m.REOPEN_INFLECTION := by
        rw [lt_div_iff h0]
        have := mul_lt_mul_of_pos_left hlt (show (0 : ℝ) < 80.5 by norm_num)
        calc 80.5 * m.REOPEN_INFLECTION < 80.5 * (6 / 80.5) := this
          _ = 6 := by norm_num
      have h81 : (80 : ℤ) + 1 ≤ rint (6 / m.REOPEN_INFLECTION) := by
        apply le_rint
        push_cast
        linarith
      have := hd.2
      rw [RegionModel.days_until_post_reopen] at this
      omega
    · have hlt2 : 6 / m.REOPEN_INFLECTION < 9.5 := by
        rw [div_lt_iff h0]
        have := mul_lt_mul_of_pos_left hgt (show (0 : ℝ) < 9.5 by norm_num)
        calc (6 : ℝ) = 9.5 * (6 / 9.5) := by norm_num
          _ < 9.5 * m.REOPEN_INFLECTION := this
      have h9 : rint (6 / m.REOPEN_INFLECTION) ≤ 9 := by
        apply rint_le
        push_cast
        linarith
      have := hd.1
      rw [RegionModel.days_until_post_reopen] at this
      omega

/-- C10 witness: for REOPEN_INFLECTION = 0.05 (inside the declared domain,
below 6/80.5), the build aborts. -/
theorem claim_C10_witness : RegionModel.build_r_0_arr mC10 = none :=
  (claim_C10 mC10).2 (by norm_num [mC10, baseModel]) (by norm_num [mC10, baseModel])
    (Or.inl (by norm_num [mC10, baseModel]))

/-! ## C4: the IFR array bounds -/

/-- A non-early-impacted model whose MORTALITY_RATE is inside the declared
domain (0, 0.2) but below MIN_IFR. -/
noncomputable def mC4 : RegionModel := RegionModel.init_params
  { baseModel with country_str := "Brazil", region_str := "ALL", MORTALITY_RATE := 0.001 }

theorem mC4_ifr_entry_zero : RegionModel.ifr_entry mC4 0 = MIN_IFR := by
  have hbr : ¬ (mC4.country_str ∈ EARLY_IMPACTED_COUNTRIES) := by decide
  have hmult : RegionModel.ifr_mult mC4 0 = 1 := by
    simp only [RegionModel.ifr_mult]
    rw [if_neg hbr, if_neg hbr]
    rw [RegionModel.min_mortality_multiplier,
      if_neg (show ¬ (mC4.country_str = "US" ∧ mC4.region_str = "MA") from by decide)]
    norm_num [MIN_MORTALITY_MULTIPLIER, MORTALITY_MULTIPLIER]
  rw [RegionModel.ifr_entry, hmult]
  have hmr : mC4.MORTALITY_RATE = 0.001 := rfl
  rw [hmr]
  norm_num [MIN_IFR]

/-- C4 counterexample: with MORTALITY_RATE = 0.001 in the declared domain
(0, 0.2), the day-0 entry of the IFR array is MIN_IFR = 0.002, which exceeds
MORTALITY_RATE, so the entry is not in [MIN_IFR, MORTALITY_RATE]. -/
theorem claim_C4_counterexample :
    0 < mC4.MORTALITY_RATE ∧ mC4.MORTALITY_RATE < 0.2 ∧
    ¬ ((RegionModel.build_ifr_arr mC4).getD 0 0 ≤ mC4.MORTALITY_RATE) := by
  have hN : (0 : ℕ) < mC4.N := by norm_num [mC4, RegionModel.init_params, baseModel]
  have h0 : (RegionModel.build_ifr_arr mC4).getD 0 0 = RegionModel.ifr_entry mC4 0 := by
    rw [RegionModel.build_ifr_arr]
    exact ofFn_getD _ 0 hN
  have hmr : mC4.MORTALITY_RATE = 0.001 := rfl
  refine ⟨by rw [hmr]; norm_num, by rw [hmr]; norm_num, ?_⟩
  rw [h0, mC4_ifr_entry_zero, hmr]
  norm_num [MIN_IFR]

/-- C4 (amended): when additionally MIN_IFR ≤ MORTALITY_RATE, every entry of
the IFR array lies in [MIN_IFR, MORTALITY_RATE]. -/
theorem claim_C4 (m : RegionModel) (h1 : 0 < m.MORTALITY_RATE) (h2 : m.MORTALITY_RATE < 0.2)
    (h3 : MIN_IFR ≤ m.MORTALITY_RATE) :
    ∀ x ∈ RegionModel.build_ifr_arr m, MIN_IFR ≤ x ∧ x ≤ m.MORTALITY_RATE := by
  intro x hx
  rw [RegionModel.build_ifr_arr, List.mem_ofFn] at hx
  obtain ⟨i, rfl⟩ := hx
  simp only [RegionModel.ifr_entry]
  constructor
  · exact le_max_left _ _
  · apply max_le h3
    calc m.MORTALITY_RATE * m.ifr_mult i.1 ≤ m.MORTALITY_RATE * 1 :=
      mul_le_mul_of_nonneg_left (ifr_mult_le_one m i.1) (le_of_lt h1)
    _ = m.MORTALITY_RATE := mul_one _

/-- C4 witness: the amended bounds at the concrete model and its entry 0. -/
theorem claim_C4_witness :
    MIN_IFR ≤ (RegionModel.build_ifr_arr baseModel).getD 0 0 ∧
    (RegionModel.build_ifr_arr baseModel).getD 0 0 ≤ baseModel.MORTALITY_RATE := by
  have hN : (0 : ℕ) < (RegionModel.build_ifr_arr baseModel).length := by
    simp [RegionModel.build_ifr_arr, baseModel]
  have hmem : (RegionModel.build_ifr_arr baseModel).getD 0 0 ∈
      RegionModel.build_ifr_arr baseModel := by
    rw [List.getD_eq_getElem _ _ hN]
    exact List.getElem_mem _
  exact claim_C4 baseModel (by norm_num [baseModel]) (by norm_num [baseModel])
    (by norm_num [baseModel, MIN_IFR]) _ hmem

/-! ## C8: shape of the undetected-deaths-ratio array -/

/-- baseModel over a longer horizon (N = 130), past the 60-day ramp. -/
noncomputable def mW8 : RegionModel := RegionModel.init_params { baseModel with N := 130 }

/-- C8: when the undetected-deaths ratio is enabled
( USE_UNDETECTED_DEATHS_RATIO = true), every entry of the built array lies in
[floor, 1], the array is non-increasing, it decreases linearly from 1.0
(entry i = 1 - step * i while i is at most the ramp length), and it equals
the country-class floor from the ramp length on. -/
theorem claim_C8 (m : RegionModel) (i : ℕ) (hi : i < m.N) :
    (m.min_undetected ≤ (m.build_undetected_deaths_ratio_arr).getD i 0 ∧
      (m.build_undetected_deaths_ratio_arr).getD i 0 ≤ 1) ∧
    (i + 1 < m.N →
      (m.build_undetected_deaths_ratio_arr).getD (i + 1) 0 ≤
        (m.build_undetected_deaths_ratio_arr).getD i 0) ∧
    (i ≤ m.days_until_min_undetected →
      (m.build_undetected_deaths_ratio_arr).getD i 0 =
        1 - ((1 - m.min_undetected) / (m.days_until_min_undetected : ℝ)) * (i : ℝ)) ∧
    (m.days_until_min_undetected ≤ i →
      (m.build_undetected_deaths_ratio_arr).getD i 0 = m.min_undetected) := by
  obtain ⟨hmn0, hmn1, hd0⟩ := undetected_params_bounds m
  have hdR : (0 : ℝ) < (m.days_until_min_undetected : ℝ) := by exact_mod_cast hd0
  set s : ℝ := (1 - m.min_undetected) / (m.days_until_min_undetected : ℝ) with hs
  have hs0 : 0 ≤ s := div_nonneg (by linarith) (le_of_lt hdR)
  have hsd : s * (m.days_until_min_undetected : ℝ) = 1 - m.min_undetected := by
    rw [hs]
    field_simp
  have hE : ∀ j, j < m.N → (m.build_undetected_deaths_ratio_arr).getD j 0 =
      max m.min_undetected (1 - s * (j : ℝ)) := by
    intro j hj
    rw [RegionModel.build_undetected_deaths_ratio_arr, ofFn_getD _ j hj,
      RegionModel.undetected_entry]
    rw [if_pos (show USE_UNDETECTED_DEATHS_RATIO = true from rfl)]
  refine ⟨⟨?_, ?_⟩, ?_, ?_, ?_⟩
  · rw [hE i hi]
    exact le_max_left _ _
  · rw [hE i hi]
    apply max_le hmn1
    have : 0 ≤ s * (i : ℝ) := mul_nonneg hs0 (by positivity)
    linarith
  · intro hi1
    rw [hE i hi, hE (i + 1) hi1]
    apply max_le_max (le_refl _)
    have : s * (i : ℝ) ≤ s * ((i : ℝ) + 1) := by nlinarith
    push_cast
    linarith
  · intro hle
    rw [hE i hi]
    apply max_eq_right
    have hcast : (i : ℝ) ≤ (m.days_until_min_undetected : ℝ) := by exact_mod_cast hle
    have : s * (i : ℝ) ≤ s * (m.days_until_min_undetected : ℝ) :=
      mul_le_mul_of_nonneg_left hcast hs0
    rw [hsd] at this
    linarith
  · intro hge
    rw [hE i hi]
    apply max_eq_left
    have hcast : (m.days_until_min_undetected : ℝ) ≤ (i : ℝ) := by exact_mod_cast hge
    have : s * (m.days_until_min_undetected : ℝ) ≤ s * (i : ℝ) :=
      mul_le_mul_of_nonneg_left hcast hs0
    rw [hsd] at this
    linarith

/-- C8 witness: the four properties at the concrete US model (ramp length 60,
floor 0.05) evaluated at the ramp day i = 60. -/
theorem claim_C8_witness :
    (RegionModel.min_undetected mW8 ≤
        (RegionModel.build_undetected_deaths_ratio_arr mW8).getD 60 0 ∧
      (RegionModel.build_undetected_deaths_ratio_arr mW8).getD 60 0 ≤ 1) ∧
    (RegionModel.build_undetected_deaths_ratio_arr mW8).getD 61 0 ≤
      (RegionModel.build_undetected_deaths_ratio_arr mW8).getD 60 0 ∧
    (RegionModel.build_undetected_deaths_ratio_arr mW8).getD 60 0 =
      1 - ((1 - RegionModel.min_undetected mW8) /
        (RegionModel.days_until_min_undetected mW8 : ℝ)) * (60 : ℝ) ∧
    (RegionModel.build_undetected_deaths_ratio_arr mW8).getD 60 0 =
      RegionModel.min_undetected mW8 := by
  have hd60 : RegionModel.days_until_min_undetected mW8 = 60 := by decide
  have h := claim_C8 mW8 60 (by norm_num [mW8, RegionModel.init_params, baseModel])
  refine ⟨h.1, h.2.1 (by norm_num [mW8, RegionModel.init_params, baseModel]),
    h.2.2.1 (by rw [hd60]), h.2.2.2 (by rw [hd60])⟩

/-! ## C7: the seeding window -/

/-- baseModel with an explicit beginning_days_flat override of 0 days. -/
noncomputable def mC7 : RegionModel := RegionModel.init_params
  { baseModel with beginning_days_flat := some 0 }

theorem mC7_imports_5 : Simulation.get_daily_imports mC7 5 = 2500 / 31 := by
  have hc : mC7.country_str ∉ ["China", "South Korea", "Australia"] := by decide
  simp only [Simulation.get_daily_imports]
  rw [if_pos ⟨hc, rfl⟩]
  have hbeg : mC7.beginning_days_flat = some 0 := rfl
  have hN : mC7.N = 30 := rfl
  have hend : mC7.end_days_offset = none := rfl
  have hDI : mC7.DAILY_IMPORTS = 100 := rfl
  rw [hbeg, hend, hN, hDI]
  simp only [Option.getD_some, Option.getD_none]
  norm_num [DAYS_WITH_IMPORTS]

/-- C7 counterexample: with beginning_days_flat = 0 the import schedule on a
seeding-window day (day 5) is 2500/31 ≈ 80.6, while the engine seeds
infections[5] with the raw DAILY_IMPORTS = 100: the seeded value is not the
import-schedule value. -/
theorem claim_C7_counterexample :
    Simulation.infections mC7 5 ≠ Simulation.get_daily_imports mC7 5 := by
  rw [infections_seed mC7 5 (by norm_num [INCUBATION_DAYS]), mC7_imports_5,
    show mC7.DAILY_IMPORTS = 100 from rfl]
  norm_num

/-- C7 (amended): on every seeding-window day the engine sets infections[i]
to the raw DAILY_IMPORTS parameter and records effective R as R_array[i]; the
seeded value coincides with the import-schedule value whenever no
beginning_days_flat override is present (so the default 10-day flat period
covers the 9-day seeding window) and DAILY_IMPORTS is nonnegative. -/
theorem claim_C7 (m : RegionModel) (i : ℕ) (hi : i < INCUBATION_DAYS + 7) :
    (Simulation.infections m i = m.DAILY_IMPORTS ∧
      Simulation.effective_r m i = m.R_0_ARR i) ∧
    (m.beginning_days_flat = none → 0 ≤ m.DAILY_IMPORTS →
      Simulation.get_daily_imports m i = m.DAILY_IMPORTS) := by
  refine ⟨⟨infections_seed m i hi, ?_⟩, ?_⟩
  · rw [Simulation.effective_r, if_pos hi]
  · intro hbeg hDI
    have hi8 : i ≤ 8 := by simp only [INCUBATION_DAYS] at hi; omega
    have hi8R : (i : ℝ) ≤ 8 := by exact_mod_cast hi8
    simp only [Simulation.get_daily_imports, hbeg, Option.getD_none]
    have hmax : max (0 : ℝ) ((i : ℝ) - ((10 : ℕ) : ℝ) + 1) = 0 := by
      apply max_eq_left
      push_cast
      linarith
    have hdaily : ∀ z : ℝ,
        m.DAILY_IMPORTS * (1 - min 1 (max 0 ((i : ℝ) - ((10 : ℕ) : ℝ) + 1) / z)) =
          m.DAILY_IMPORTS := by
      intro z
      rw [hmax, zero_div, min_eq_right (by norm_num : (0 : ℝ) ≤ 1)]
      ring
    split_ifs with hcond
    · rw [hdaily]
      exact max_eq_left (le_trans (min_le_right _ _) (by nlinarith))
    · exact hdaily _

/-- C7 witness: the amended statement at the concrete default model, day 5. -/
theorem claim_C7_witness :
    (Simulation.infections baseModel 5 = baseModel.DAILY_IMPORTS ∧
      Simulation.effective_r baseModel 5 = baseModel.R_0_ARR 5) ∧
    Simulation.get_daily_imports baseModel 5 = baseModel.DAILY_IMPORTS := by
  have h := claim_C7 baseModel 5 (by norm_num [INCUBATION_DAYS])
  exact ⟨h.1, h.2 rfl (by norm_num [baseModel])⟩

/-! ## C5: can cumulative infections exceed the population? -/

/-- A model whose import schedule is identically zero past the seeding window
(beginning_days_flat = 0, end_days_offset = N - 9) and whose nine seeding
days alone already inject 9000 > population = 1000 infections. -/
noncomputable def mC5 : RegionModel := RegionModel.init_params
  { baseModel with
    DAILY_IMPORTS := 1000
    N := 24
    beginning_days_flat := some 0
    end_days_offset := some 15 }

theorem mC5_imports_zero : ∀ i : ℕ, INCUBATION_DAYS + 7 ≤ i →
    Simulation.get_daily_imports mC5 i = 0 := by
  intro i hi
  have h9 : 9 ≤ i := by simpa [INCUBATION_DAYS] using hi
  have h9R : (9 : ℝ) ≤ (i : ℝ) := by exact_mod_cast h9
  simp only [Simulation.get_daily_imports]
  rw [if_neg (fun hc => absurd hc.2 (by decide))]
  have hbeg : mC5.beginning_days_flat = some 0 := rfl
  have hend : mC5.end_days_offset = some 15 := rfl
  have hN : mC5.N = 24 := rfl
  have hDI : mC5.DAILY_IMPORTS = 1000 := rfl
  rw [hbeg, hend, hN, hDI]
  simp only [Option.getD_some]
  push_cast
  norm_num
  have h1 : (0 : ℝ) ⊔ ((i : ℝ) + 1) = (i : ℝ) + 1 := max_eq_right (by positivity)
  rw [h1]
  have h2 : (1 : ℝ) ⊓ (((i : ℝ) + 1) / 10) = 1 := by
    apply min_eq_left
    rw [le_div_iff (by norm_num : (0 : ℝ) < 10)]
    linarith
  rw [h2]
  ring

/-- The hypothesis of C5: the import schedule is zero on every day at or past
the end of the initial seeding window. -/
def imports_zero_beyond_seeding (m : RegionModel) : Prop :=
  ∀ i : ℕ, INCUBATION_DAYS + 7 ≤ i → Simulation.get_daily_imports m i = 0

/-- C5 counterexample: mC5 has zero daily imports beyond the seeding window,
yet its cumulative infections already exceed the population P = 1000 on day 1
(the seeding assignment alone contributes DAILY_IMPORTS = 1000 per day). -/
theorem claim_C5_counterexample :
    imports_zero_beyond_seeding mC5 ∧
    ¬ ((∑ j in Finset.range 2, Simulation.infections mC5 j) ≤ (mC5.population : ℝ)) := by
  refine ⟨mC5_imports_zero, ?_⟩
  rw [sum_infections_seed mC5 2 (by norm_num [INCUBATION_DAYS]),
    show mC5.DAILY_IMPORTS = 1000 from rfl,
    show (mC5.population : ℝ) = 1000 by norm_num [mC5, RegionModel.init_params, baseModel]]
  norm_num

/-- C5 (amended): the cumulative-infected fraction used in the immunity
feedback is capped at 1.0, and once the cumulative infections through day
i-2 reach the population the renewal term vanishes, so day i's infections
equal that day's imports; the cumulative infections series itself is not
bounded by the population. -/
theorem claim_C5 (m : RegionModel) (i : ℕ) (h9 : INCUBATION_DAYS + 7 ≤ i)
    (hpop : 0 < m.population)
    (hge : (m.population : ℝ) ≤ ∑ j in Finset.range (i - 1), Simulation.infections m j) :
    min 1 ((∑ j in Finset.range (i - 1), Simulation.infections m j) / (m.population : ℝ)) = 1 ∧
    Simulation.infections m i = Simulation.get_daily_imports m i := by
  have hpR : (0 : ℝ) < (m.population : ℝ) := by exact_mod_cast hpop
  have hmin : min 1 ((∑ j in Finset.range (i - 1), Simulation.infections m j) /
      (m.population : ℝ)) = 1 := by
    apply min_eq_left
    rw [one_le_div hpR]
    exact hge
  refine ⟨hmin, ?_⟩
  rw [infections_main m i h9]
  have heff : Simulation.effective_r m i = 0 := by
    rw [Simulation.effective_r, if_neg (by omega), hmin, sub_self,
      Real.zero_rpow (ne_of_gt (immunity_mult_pos m)), mul_zero]
  rw [heff, mul_zero, zero_add]

/-- C5 witness: the amended statement at mC5 and day 9, whose eight prior
days already hold 8000 ≥ 1000 infections. -/
theorem claim_C5_witness :
    min 1 ((∑ j in Finset.range (9 - 1), Simulation.infections mC5 j) /
      (mC5.population : ℝ)) = 1 ∧
    Simulation.infections mC5 9 = Simulation.get_daily_imports mC5 9 := by
  apply claim_C5 mC5 9 (by norm_num [INCUBATION_DAYS])
    (by norm_num [mC5, RegionModel.init_params, baseModel])
  rw [show (9 - 1 : ℕ) = 8 from rfl,
    sum_infections_seed mC5 8 (by norm_num [INCUBATION_DAYS]),
    show mC5.DAILY_IMPORTS = 1000 from rfl,
    show (mC5.population : ℝ) = 1000 by norm_num [mC5, RegionModel.init_params, baseModel]]
  norm_num

/-! ## C3: the infections-loop equations -/

theorem M0_imm : Simulation.get_immunity_mult M0 = 0.5 := by
  norm_num [Simulation.get_immunity_mult, Simulation.immunity_mult_base, M0,
    RegionModel.init_params, baseModel, IMMUNITY_MULTIPLIER]
  decide

theorem M0_R (i : ℕ) : M0.R_0_ARR i = 1 := baseModel_r_candidate i

/-- C3 counterexample: on day 9 the code's cumulative-infected fraction sums
infections[0:8] (days 0..7, i.e. range (i-1)), not all prior days 0..8: with
the concrete model the loop records effective R = (1 - 800/1000)^0.5, which
differs from R_array[9] * (1 - min(1, (sum over days 0..8)/P))^imm =
(1 - 900/1000)^0.5. -/
theorem claim_C3_counterexample :
    Simulation.effective_r M0 9 ≠
      M0.R_0_ARR 9 *
        (1 - min 1 ((∑ j in Finset.range 9, Simulation.infections M0 j) /
          (M0.population : ℝ))) ^ Simulation.get_immunity_mult M0 := by
  have hpop : (M0.population : ℝ) = 1000 := by
    norm_num [M0, RegionModel.init_params, baseModel]
  have hL : Simulation.effective_r M0 9 = (0.2 : ℝ) ^ (0.5 : ℝ) := by
    rw [Simulation.effective_r, if_neg (by norm_num [INCUBATION_DAYS]),
      show (9 - 1 : ℕ) = 8 from rfl, sum_infections_seed M0 8 (by norm_num [INCUBATION_DAYS]),
      show M0.DAILY_IMPORTS = 100 from rfl, hpop, M0_imm, M0_R]
    norm_num
  have hR : M0.R_0_ARR 9 *
      (1 - min 1 ((∑ j in Finset.range 9, Simulation.infections M0 j) /
        (M0.population : ℝ))) ^ Simulation.get_immunity_mult M0 = (0.1 : ℝ) ^ (0.5 : ℝ) := by
    rw [sum_infections_seed M0 9 (by norm_num [INCUBATION_DAYS]),
      show M0.DAILY_IMPORTS = 100 from rfl, hpop, M0_imm, M0_R]
    norm_num
  rw [hL, hR]
  exact (Real.rpow_lt_rpow (by norm_num) (by norm_num) (by norm_num)).ne'

/-- C3 (amended): past the seeding window, day i's effective R equals
R_array[i] * (1 - min(1, (sum of infections over days 0..i-2)/population))
raised to the engine's immunity multiplier — the cumulative sum excludes day
i-1 (infections[:i-1]) — and infections[i] equals that effective R times the
incubation-offset kernel window dot product plus the day-i imports. -/
theorem claim_C3 (m : RegionModel) (i : ℕ) (h9 : INCUBATION_DAYS + 7 ≤ i) (hi : i < m.N) :
    Simulation.effective_r m i =
      m.R_0_ARR i *
        (1 - min 1 ((∑ j in Finset.range (i - 1), Simulation.infections m j) /
          (m.population : ℝ))) ^ Simulation.get_immunity_mult m ∧
    Simulation.infections m i =
      Simulation.effective_r m i *
        (∑ k in Finset.range 7,
          Simulation.infections m (i - INCUBATION_DAYS - 7 + 1 + k) *
            Simulation.infections_norm m k) +
      Simulation.get_daily_imports m i := by
  constructor
  · rw [Simulation.effective_r, if_neg (by omega)]
  · rw [infections_main m i h9]
    ring

/-- C3 witness: the amended loop equations at the concrete model, day 9. -/
theorem claim_C3_witness :
    Simulation.effective_r M0 9 =
      M0.R_0_ARR 9 *
        (1 - min 1 ((∑ j in Finset.range (9 - 1), Simulation.infections M0 j) /
          (M0.population : ℝ))) ^ Simulation.get_immunity_mult M0 ∧
    Simulation.infections M0 9 =
      Simulation.effective_r M0 9 *
        (∑ k in Finset.range 7,
          Simulation.infections M0 (9 - INCUBATION_DAYS - 7 + 1 + k) *
            Simulation.infections_norm M0 k) +
      Simulation.get_daily_imports M0 9 :=
  claim_C3 M0 9 (by norm_num [INCUBATION_DAYS])
    (by norm_num [M0, RegionModel.init_params, baseModel])

/-! ## C6: the stability guard of build_r_0_arr -/

/-- C6: whenever build_r_0_arr succeeds, every day index i past reopen_idx
satisfies |R_array[i]/R_array[i-1] - 1| <= 0.2 (the fixed stability
tolerance); and when some candidate day value past reopen_idx would exceed
the tolerance, the build aborts with no partial output (returns none). -/
theorem claim_C6 (m : RegionModel) :
    (∀ arr, m.build_r_0_arr = some arr → ∀ i : ℕ, 1 ≤ i → i < m.N →
      m.reopen_idx < (i : ℤ) → |arr.getD i 0 / arr.getD (i - 1) 0 - 1| ≤ 0.2) ∧
    (∀ i : ℕ, 1 ≤ i → i < m.N → m.reopen_idx < (i : ℤ) →
      0.2 < |m.r_candidate i / m.r_candidate (i - 1) - 1| → m.build_r_0_arr = none) := by
  constructor
  · intro arr harr i h1 h2 h3
    rw [RegionModel.build_r_0_arr] at harr
    by_cases hc : m.r_0_checks
    · rw [if_pos hc] at harr
      injection harr with harr
      subst harr
      rw [ofFn_getD _ i h2, ofFn_getD _ (i - 1) (by omega)]
      exact hc.2.2.2.2.2.1 i h1 h2 h3
    · rw [if_neg hc] at harr
      exact absurd harr (by simp)
  · intro i h1 h2 h3 hbad
    rw [RegionModel.build_r_0_arr, if_neg]
    intro hc
    exact absurd (hc.2.2.2.2.2.1 i h1 h2 h3) (not_le.mpr hbad)

/-- C6 witness: the stability bound at day 18 (> reopen_idx = 17) of the
successfully built R array of the concrete model. -/
theorem claim_C6_witness :
    |(List.ofFn (fun i : Fin baseModel.N => RegionModel.r_candidate baseModel i)).getD 18 0 /
      (List.ofFn (fun i : Fin baseModel.N => RegionModel.r_candidate baseModel i)).getD 17 0 -
      1| ≤ 0.2 :=
  (claim_C6 baseModel).1 _ baseModel_build 18 (by norm_num)
    (by norm_num [baseModel]) (by rw [baseModel_reopen_idx]; norm_num)

/-! ## C1: is the report-lag kernel applied? -/

theorem deaths_norm_zero : Simulation.deaths_norm.getD 0 0 = 2 / 39 := by
  norm_num [Simulation.deaths_norm, DEATHS_DAYS_ARR, List.getD_cons_zero]

theorem lag_zero : RegionModel.get_reporting_delay_distribution.getD 0 0 = 0 := by
  rw [RegionModel.get_reporting_delay_distribution, DEATH_REPORTING_LAG_ARR]
  simp

theorem M0_ifr_15 : M0.ifr_arr 15 = 0.01 := by
  show RegionModel.ifr_entry baseModel 15 = 0.01
  have hUS : baseModel.country_str ∈ EARLY_IMPACTED_COUNTRIES := by decide
  have hmult : RegionModel.ifr_mult baseModel 15 = 1 := by
    simp only [RegionModel.ifr_mult]
    rw [if_pos hUS, if_pos hUS]
    rw [RegionModel.min_mortality_multiplier,
      if_neg (show ¬ (baseModel.country_str = "US" ∧ baseModel.region_str = "MA") from
        by decide)]
    rw [baseModel_reopen_idx]
    norm_num [MIN_MORTALITY_MULTIPLIER, MORTALITY_MULTIPLIER, MORTALITY_MULTIPLIER_US_REOPEN,
      DAYS_BEFORE_DEATH]
  rw [RegionModel.ifr_entry, hmult, show baseModel.MORTALITY_RATE = 0.01 from rfl]
  norm_num [MIN_IFR]

theorem M0_undetected_15 : M0.undetected_deaths_ratio_arr 15 = 0.7625 := by
  show RegionModel.undetected_entry baseModel 15 = 0.7625
  have hmin : RegionModel.min_undetected baseModel = 0.05 := by
    rw [RegionModel.min_undetected, RegionModel.undetected_params,
      if_pos (show baseModel.country_str ∈ HIGH_INCOME_COUNTRIES from by decide)]
  have hdays : RegionModel.days_until_min_undetected baseModel = 60 := by
    rw [RegionModel.days_until_min_undetected, RegionModel.undetected_params,
      if_pos (show baseModel.country_str ∈ HIGH_INCOME_COUNTRIES from by decide)]
  rw [RegionModel.undetected_entry, if_pos (show USE_UNDETECTED_DEATHS_RATIO = true from rfl),
    hmin, hdays]
  norm_num

/-- C1 counterexample: at the concrete model the code's reported deaths on
the first death day (d = 15) are positive, while the forward convolution of
the detected true deaths with the normalized report-lag kernel is 0 there
(the kernel's same-day weight is 0 and no earlier detected deaths exist):
run() does not distribute deaths over later reporting days. -/
theorem claim_C1_counterexample :
    Simulation.deaths M0 15 ≠ Simulation.reported_deaths_spec M0 15 := by
  have hsub : Simulation.infections_subject_to_death M0 15 = 100 * (2 / 39) := by
    rw [Simulation.infections_subject_to_death,
      show min 15 (15 - 14) = 1 from rfl, Finset.sum_range_one,
      show (15 - 29 + 0 : ℕ) = 0 from rfl,
      infections_seed M0 0 (by norm_num [INCUBATION_DAYS]),
      show M0.DAILY_IMPORTS = 100 from rfl, deaths_norm_zero]
  have hdeaths : Simulation.deaths M0 15 = 100 * (2 / 39) * 0.01 * (1 - 0.7625) := by
    rw [Simulation.deaths,
      if_pos ⟨le_refl 15, show (15 : ℕ) < M0.N from by
        norm_num [M0, RegionModel.init_params, baseModel]⟩,
      hsub, M0_ifr_15, M0_undetected_15]
  have hspec : Simulation.reported_deaths_spec M0 15 = 0 := by
    rw [Simulation.reported_deaths_spec]
    apply Finset.sum_eq_zero
    intro k hk
    rcases Nat.eq_zero_or_pos k with hk0 | hkpos
    · subst hk0
      rw [lag_zero]
      ring
    · rw [Simulation.true_deaths, if_neg (by rintro ⟨hc1, _⟩; omega)]
      ring
  rw [hdeaths, hspec]
  norm_num

/-- C1 (amended): no report-lag convolution is applied: for every day of
death d in [15, N), the reported-deaths entry equals the day's true deaths
times (1 - undetected-ratio[d]) placed directly on day d; the report-lag
distribution (get_reporting_delay_distribution) is never used by run(). -/
theorem claim_C1 (m : RegionModel) (d : ℕ) (h15 : 15 ≤ d) (hd : d < m.N) :
    Simulation.deaths m d =
      Simulation.true_deaths m d * (1 - m.undetected_deaths_ratio_arr d) := by
  rw [Simulation.deaths, Simulation.true_deaths, if_pos ⟨h15, hd⟩, if_pos ⟨h15, hd⟩]

/-- C1 witness: the amended identity at the concrete model, day 15. -/
theorem claim_C1_witness :
    Simulation.deaths M0 15 =
      Simulation.true_deaths M0 15 * (1 - M0.undetected_deaths_ratio_arr 15) :=
  claim_C1 M0 15 (le_refl 15) (by norm_num [M0, RegionModel.init_params, baseModel])
